import Mathlib

/-!
Verification of the Paper-Reviewer-AI backend (FastAPI + CrewAI pipeline).

The development shallowly embeds the two source files:
  backend/app/crew_setup.py  (arXiv search client, Gemini summarization
                              client, result-shape normalization in
                              run_research_crew)
  backend/app/main.py        (the POST /api/summarize handler)

Python dynamic values are modelled by the inductive `PyVal`; external
collaborators (the arXiv provider, the Gemini generate_content call, and
the stdlib JSON parser) are parameters of the embedded functions.  Code
paths that can raise a Python exception are modelled with `Except Unit`.
-/

/-- Model of a Python/JSON dynamic value as it occurs in the backend:
None, bool, int, str, list, dict (dicts modelled as association lists,
first occurrence of a key wins, mirroring unique-key Python dicts). -/
inductive PyVal where
  | none
  | bool (b : Bool)
  | int (n : Int)
  | str (s : String)
  | list (xs : List PyVal)
  | dict (kvs : List (String × PyVal))

/-- Python truthiness (`if not x`) for the values above. -/
def PyVal.truthy : PyVal → Bool
  | .none => false
  | .bool b => b
  | .int n => n != 0
  | .str s => s != ""
  | .list xs => !xs.isEmpty
  | .dict kvs => !kvs.isEmpty

/-- The characters Python `str.strip()` removes. -/
def pyIsSpace (c : Char) : Bool :=
  c == ' ' || c == '\t' || c == '\n' || c == '\r' || c == '\x0b' || c == '\x0c'

/-- Python `s.strip()`: remove leading and trailing whitespace. -/
def pyStrip (s : String) : String :=
  String.mk (((s.data.dropWhile pyIsSpace).reverse.dropWhile pyIsSpace).reverse)

/-- `isinstance(v, dict)`. -/
def PyVal.isDict : PyVal → Bool
  | .dict _ => true
  | _ => false

/-- Python `d.get(k)` on an association list, returning `Option`. -/
def pyLookup (kvs : List (String × PyVal)) (k : String) : Option PyVal :=
  (kvs.find? (fun kv => kv.1 == k)).map (fun kv => kv.2)

/-- Python `d.get(k, default)` on an association list. -/
def pyGetD (kvs : List (String × PyVal)) (k : String) (d : PyVal) : PyVal :=
  match pyLookup kvs k with
  | some v => v
  | Option.none => d

/-- Python `a or b` (value-returning boolean or). -/
def pyOr (a b : PyVal) : PyVal := if a.truthy then a else b

/-- Python `v.get(k, default)` where `v` may not be a dict: raises
(AttributeError) unless `v` is a dict. -/
def pyDotGet (v : PyVal) (k : String) (d : PyVal) : Except Unit PyVal :=
  match v with
  | .dict kvs => .ok (pyGetD kvs k d)
  | _ => .error ()

/-- Python `for x in v`: lists iterate elements, strings iterate
1-character strings, dicts iterate their keys; everything else raises
TypeError. -/
def pyIter : PyVal → Except Unit (List PyVal)
  | .list xs => .ok xs
  | .str s => .ok (s.data.map fun c => .str (String.mk [c]))
  | .dict kvs => .ok (kvs.map fun kv => .str kv.1)
  | _ => .error ()

/-- The orchestration (CrewAI kickoff or fallback) result, as inspected by
run_research_crew lines 200-232: a plain string, a plain list, an object
exposing a `raw` attribute, or anything else. -/
inductive CrewResult where
  | str (s : String)
  | list (xs : List PyVal)
  | withRaw (raw : PyVal)
  | other

/-- crew_setup.py lines 200-232: the shape dispatch on the orchestration
result.  `parse` stands for `json.loads`; a parse failure
(json.JSONDecodeError) is caught and yields `[]`.  The Python chain is
`isinstance(result, str)` / `isinstance(result, list)` /
`hasattr(result, "raw") and isinstance(result.raw, str)` /
`hasattr(result, "raw")` (then an inner isinstance-list test) / else. -/
def shapePapers (parse : String → Option PyVal) (result : CrewResult) : PyVal :=
  match result with
  | .str s =>
    match parse s with
    | some v => v
    | Option.none => .list []
  | .list xs => .list xs
  | .withRaw (.str s) =>
    match parse s with
    | some v => v
    | Option.none => .list []
  | .withRaw (.list xs) => .list xs
  | .withRaw _ => .list []
  | .other => .list []

/-- Modelled from the spec: the five-step decision procedure of the Result
Normalizer (spec section 4.4), written from the spec text for refinement
comparison with `shapePapers`.  Step 1 and 3 parse a string into a
sequence of records, treating parse failure as zero records; steps 2 and
4 use an embedded sequence directly; step 5 yields zero records. -/
def normalizeShapeSpec (parse : String → Option PyVal) (result : CrewResult) :
    List PyVal :=
  match result with
  | .str s =>
    match parse s with
    | some (.list xs) => xs
    | _ => []
  | .list xs => xs
  | .withRaw (.str s) =>
    match parse s with
    | some (.list xs) => xs
    | _ => []
  | .withRaw (.list xs) => xs
  | .withRaw _ => []
  | .other => []

/-- The external collaborators of run_research_crew: `parse` is
`json.loads`, `search` is `_arxiv_search_function` (which already
recovers from provider errors and always returns a list, see
`arxiv_search_function` below), `summarize` is `_summarize_with_gemini`
(which may raise, see `summarize_with_gemini` below), and the Gemini
model configuration read at module load. -/
structure CrewDeps where
  parse : String → Option PyVal
  search : String → Int → List PyVal
  summarize : PyVal → Except Unit PyVal
  geminiModel : String
  apiKeySet : Bool

/-- crew_setup.py lines 236-240: if the dispatched `papers` value is falsy
(`if not papers`), call the search client once with the original
`(topic, top_n)` and use its result.  The second component records the
arguments of every search-client invocation made by this step. -/
def recordsAfterFallback (deps : CrewDeps) (result : CrewResult)
    (topic : String) (topN : Int) : PyVal × List (String × Int) :=
  let papers := shapePapers deps.parse result
  if papers.truthy then (papers, [])
  else (.list (deps.search topic topN), [(topic, topN)])

/-- crew_setup.py lines 247-253: the `base` dict built from a record `p`,
with `p.get(field) or default` coercions and `p.get("published")`. -/
def mkBase (p : List (String × PyVal)) : List (String × PyVal) :=
  [("title", pyOr (pyGetD p "title" .none) (.str "")),
   ("authors", pyOr (pyGetD p "authors" .none) (.list [])),
   ("abstract", pyOr (pyGetD p "abstract" .none) (.str "")),
   ("link", pyOr (pyGetD p "link" .none) (.str "")),
   ("published", pyGetD p "published" .none)]

/-- crew_setup.py lines 257-262: the four-key summary dict built from the
summary source `m` with `m.get(key, "")` for each of the four keys. -/
def projectSummary (m : List (String × PyVal)) : List (String × PyVal) :=
  [("problem", pyGetD m "problem" (.str "")),
   ("methodology", pyGetD m "methodology" (.str "")),
   ("findings", pyGetD m "findings" (.str "")),
   ("limitations", pyGetD m "limitations" (.str ""))]

/-- The four `summary.get(key, "")` calls of lines 258-261 applied to an
arbitrary value: each raises AttributeError unless the value is a dict. -/
def summaryProjection (v : PyVal) : Except Unit (List (String × PyVal)) :=
  match v with
  | .dict m => .ok (projectSummary m)
  | _ => .error ()

/-- crew_setup.py lines 244-262, body of the normalization loop for one
entry `p`: non-dict entries are skipped (`continue`, modelled as
`Option.none`); otherwise `base` is built, the summarizer is invoked when
`p.get("summary")` is falsy or not a dict, and the enriched dict
`{**base, "summary": {...}}` is emitted.  The second component counts
the summarizer invocations made for this entry (0 or 1). -/
def normalizeRecord (summarize : PyVal → Except Unit PyVal) (p : PyVal) :
    Except Unit (Option PyVal) × Nat :=
  match p with
  | .dict m =>
    let base := mkBase m
    let s := pyGetD m "summary" .none
    if s.truthy && s.isDict then
      match summaryProjection s with
      | .ok proj => (.ok (some (.dict (base ++ [("summary", .dict proj)]))), 0)
      | .error e => (.error e, 0)
    else
      match summarize (.dict base) with
      | .ok s2 =>
        match summaryProjection s2 with
        | .ok proj => (.ok (some (.dict (base ++ [("summary", .dict proj)]))), 1)
        | .error e => (.error e, 1)
      | .error e => (.error e, 1)
  | _ => (.ok Option.none, 0)

/-- The full normalization loop over the record list, preserving order and
accumulating the summarizer invocation count; an exception raised on one
entry aborts the loop (the Python for-loop has no try). -/
def normalizeLoop (summarize : PyVal → Except Unit PyVal) :
    List PyVal → Except Unit (List PyVal) × Nat
  | [] => (.ok [], 0)
  | p :: rest =>
    match normalizeRecord summarize p with
    | (.ok o, c) =>
      match normalizeLoop summarize rest with
      | (.ok l, c2) => (.ok (o.toList ++ l), c + c2)
      | (.error e, c2) => (.error e, c + c2)
    | (.error e, c) => (.error e, c)

/-- The response dict of crew_setup.py lines 264-268. -/
structure PyResponse where
  topic : String
  model : String
  papers : List PyVal

/-- crew_setup.py lines 194-268 (`run_research_crew` after the
orchestration produced `result`): model-name selection (line 195), shape
dispatch (200-232), empty fallback (236-240), normalization loop
(243-262) and response construction.  Besides the response it returns
the search-client invocations and the summarizer invocation count. -/
def runResearchCrewAux (deps : CrewDeps) (result : CrewResult)
    (topic : String) (topN : Int) :
    Except Unit PyResponse × List (String × Int) × Nat :=
  let model := if deps.apiKeySet then deps.geminiModel else "gemini-2.5-flash"
  let pf := recordsAfterFallback deps result topic topN
  match pyIter pf.1 with
  | .error e => (.error e, pf.2, 0)
  | .ok items =>
    match normalizeLoop deps.summarize items with
    | (.ok normalized, c) => (.ok ⟨topic, model, normalized⟩, pf.2, c)
    | (.error e, c) => (.error e, pf.2, c)

/-- `run_research_crew` proper: the returned value (or the exception that
escapes it). -/
def run_research_crew (deps : CrewDeps) (result : CrewResult)
    (topic : String) (topN : Int) : Except Unit PyResponse :=
  (runResearchCrewAux deps result topic topN).1

/-- One result object yielded by the arXiv provider iteration in
crew_setup.py lines 53-61: `r.title`, author names, `r.summary`,
`r.entry_id`, and the already-strftime-formatted publication date when
`r.published` is set. -/
structure ArxivEntry where
  title : String
  authorNames : List String
  summary : String
  entryId : String
  published : Option String

/-- The dict appended for one provider result (lines 55-61). -/
def arxivEntryRecord (r : ArxivEntry) : PyVal :=
  .dict [("title", .str r.title),
         ("authors", .list (r.authorNames.map PyVal.str)),
         ("abstract", .str r.summary),
         ("link", .str r.entryId),
         ("published",
           match r.published with
           | some d => .str d
           | Option.none => .none)]

/-- crew_setup.py lines 46-66, `_arxiv_search_function`: the whole body
sits in a try/except; `provider` models `arxiv.Search(...).results()`
(which either yields a full result list or raises at some point during
iteration, aborting the whole try block).  On any provider error the
function returns the empty list. -/
def arxiv_search_function
    (provider : String → Int → Except Unit (List ArxivEntry))
    (query : String) (maxResults : Int) : List PyVal :=
  match provider query maxResults with
  | .ok rs => rs.map arxivEntryRecord
  | .error _ => []

/-- crew_setup.py lines 138-142, `_clean_json_text`: strip, remove one
leading code fence (with optional `json` tag), remove one trailing code
fence, strip again. -/
def clean_json_text (text : String) : String :=
  let td := (pyStrip text).data
  let td := if ("```json".data).isPrefixOf td then td.drop 7
            else if ("```".data).isPrefixOf td then td.drop 3
            else td
  let td := if ("```".data).isSuffixOf td then (td.reverse.drop 3).reverse else td
  pyStrip (String.mk td)

/-- Python `", ".join(v)`: succeeds when every iterated element is a
string (list of strings, a string itself, or a dict whose keys are
joined), raises TypeError otherwise. -/
def pyJoin (sep : String) : PyVal → Except Unit String
  | .list xs =>
    match xs.mapM (fun v => match v with | .str s => some s | _ => Option.none) with
    | some strs => .ok (sep.intercalate strs)
    | Option.none => .error ()
  | .str s => .ok (sep.intercalate (s.data.map fun c => String.mk [c]))
  | .dict kvs => .ok (sep.intercalate (kvs.map fun kv => kv.1))
  | _ => .error ()

/-- The outcome of the one `GENAI_CLIENT.models.generate_content` call
made by `_summarize_with_gemini`: either the call raises, or it returns a
response whose `text` attribute is the given optional string (absent and
empty text both fall back to the string holding an empty JSON object via
`getattr(resp, "text", None) or "{}"`). -/
inductive GenOutcome where
  | raises
  | returns (text : Option String)

/-- Line 156: `getattr(resp, "text", None) or "\x7b\x7d"` — the response
text, falling back to the two-character empty-JSON-object string when the
attribute is absent or empty. -/
def respText (t : Option String) : String :=
  match t with
  | some s => if s == "" then "\x7b\x7d" else s
  | Option.none => "\x7b\x7d"

/-- The all-empty summary dict returned on lines 147 and 160. -/
def emptySummary : PyVal :=
  .dict [("problem", .str ""), ("methodology", .str ""),
         ("findings", .str ""), ("limitations", .str "")]

/-- crew_setup.py lines 145-160, `_summarize_with_gemini`.  When the
client is unconfigured the empty summary is returned at once.  Otherwise
the prompt is built: the only failing step of the f-string construction
is `", ".join(paper.get("authors", []))`, which raises on non-string
author entries (the rendered prompt text itself only feeds the provider,
whose outcome `gen` is an input here, so the text is not tracked).  The
`generate_content` call on line 155 is OUTSIDE the try block: if it
raises, the exception escapes this function.  Only the `json.loads` of
the cleaned response text is guarded; parse failure yields the empty
summary, while a successful parse returns the parsed value verbatim. -/
def summarize_with_gemini (clientConfigured : Bool) (gen : GenOutcome)
    (parse : String → Option PyVal) (paper : List (String × PyVal)) :
    Except Unit PyVal :=
  if !clientConfigured then .ok emptySummary
  else
    match pyJoin ", " (pyGetD paper "authors" (.list [])) with
    | .error e => .error e
    | .ok _ =>
      match gen with
      | .raises => .error ()
      | .returns t =>
        match parse (clean_json_text (respText t)) with
        | some v => .ok v
        | Option.none => .ok emptySummary

/-- main.py lines 34-36: the request model; `top_n` is optional with
pydantic default 5, so an absent field parses to 5 and an explicit JSON
null parses to `Option.none`. -/
structure SummarizeRequest where
  topic : String
  top_n : Option Int

/-- The raw `top_n` field of the request body as sent by the client. -/
inductive RawTopN where
  | absent
  | null
  | val (n : Int)

/-- Pydantic field parsing for `top_n: Optional[int] = 5`. -/
def parseTopN : RawTopN → Option Int
  | .absent => some 5
  | .null => Option.none
  | .val n => some n

/-- Outcome of the HTTP handler: a 200 response, or an HTTPException with
status code and detail. -/
inductive HandlerResult where
  | ok (resp : PyResponse)
  | err (status : Nat) (detail : String)

/-- main.py lines 59-71, the POST /api/summarize handler: strip the topic,
reject blank topics with 400 before any pipeline call, apply the
`req.top_n or 5` coercion, run the pipeline (modelled by `run`), and map
any escaping exception to a 500.  The second component records the
arguments of every pipeline invocation. -/
def summarize_handler (run : String → Int → Except Unit PyResponse)
    (req : SummarizeRequest) : HandlerResult × List (String × Int) :=
  let topic := pyStrip req.topic
  if topic == "" then (.err 400 "Topic must not be empty", [])
  else
    let topN := match req.top_n with
      | Option.none => 5
      | some n => if n == 0 then 5 else n
    match run topic topN with
    | .ok r => (.ok r, [(topic, topN)])
    | .error _ => (.err 500 "Crew execution failed", [(topic, topN)])

/-- Concrete dependency bundle where the direct search finds one paper,
the summarizer yields an (empty) dict, and JSON parsing always fails. -/
def depsJunkList : CrewDeps :=
  { parse := fun _ => Option.none
    search := fun _ _ => [PyVal.dict [("title", PyVal.str "T")]]
    summarize := fun _ => .ok (PyVal.dict [])
    geminiModel := "m"
    apiKeySet := false }

/-- Concrete dependency bundle where the direct search returns one empty
record and the summarizer returns an empty dict. -/
def depsEmptyRecord : CrewDeps :=
  { parse := fun _ => Option.none
    search := fun _ _ => [PyVal.dict []]
    summarize := fun _ => .ok (PyVal.dict [])
    geminiModel := "m"
    apiKeySet := false }

/-- Concrete dependency bundle whose parser recognizes exactly the literal
string holding an empty JSON array. -/
def depsEmptyArray : CrewDeps :=
  { parse := fun s => if s == "[]" then some (PyVal.list []) else Option.none
    search := fun _ _ => [PyVal.dict []]
    summarize := fun _ => .ok (PyVal.dict [])
    geminiModel := "m"
    apiKeySet := false }

/-- The enriched paper produced from an empty source record with an
all-empty summarizer result. -/
def emptyEnriched : PyVal :=
  .dict (mkBase [] ++ [("summary", PyVal.dict (projectSummary []))])

/-- The response produced by `runResearchCrewAux depsEmptyRecord .other
"t" 5`. -/
def respEmptyRecord : PyResponse := ⟨"t", "gemini-2.5-flash", [emptyEnriched]⟩


/-! ## Helper lemmas -/

theorem summaryProjection_ok {v : PyVal} {proj : List (String × PyVal)}
    (h : summaryProjection v = .ok proj) :
    ∃ sm, v = PyVal.dict sm ∧ proj = projectSummary sm := by
  cases v <;> simp [summaryProjection] at h
  exact ⟨_, rfl, h.symm⟩

theorem isDict_exists {v : PyVal} (h : v.isDict = true) :
    ∃ m, v = PyVal.dict m := by
  cases v <;> simp [PyVal.isDict] at h ⊢

theorem normalizeRecord_ok_some {summarize : PyVal → Except Unit PyVal}
    {p : PyVal} {e : PyVal} {c : Nat}
    (h : normalizeRecord summarize p = (.ok (some e), c)) :
    ∃ m sm,
      e = PyVal.dict (mkBase m ++ [("summary", PyVal.dict (projectSummary sm))]) := by
  cases p with
  | dict m =>
    simp only [normalizeRecord] at h
    split at h
    · split at h
      · rename_i proj heq
        obtain ⟨sm, hv, hproj⟩ := summaryProjection_ok heq
        simp only [Prod.mk.injEq, Except.ok.injEq, Option.some.injEq] at h
        exact ⟨m, sm, by rw [← h.1, hproj]⟩
      · simp at h
    · split at h
      · split at h
        · rename_i s2 hs2 proj heq
          obtain ⟨sm, hv, hproj⟩ := summaryProjection_ok heq
          simp only [Prod.mk.injEq, Except.ok.injEq, Option.some.injEq] at h
          exact ⟨m, sm, by rw [← h.1, hproj]⟩
        · simp at h
      · simp at h
  | none => simp [normalizeRecord] at h
  | bool b => simp [normalizeRecord] at h
  | int n => simp [normalizeRecord] at h
  | str s => simp [normalizeRecord] at h
  | list xs => simp [normalizeRecord] at h

theorem normalizeLoop_mem {summarize : PyVal → Except Unit PyVal} :
    ∀ {items l : List PyVal} {c : Nat},
      normalizeLoop summarize items = (.ok l, c) →
      ∀ {e : PyVal}, e ∈ l →
      ∃ m sm,
        e = PyVal.dict (mkBase m ++ [("summary", PyVal.dict (projectSummary sm))]) := by
  intro items
  induction items with
  | nil =>
    intro l c h e he
    simp only [normalizeLoop, Prod.mk.injEq, Except.ok.injEq] at h
    rw [← h.1] at he
    simp at he
  | cons p rest ih =>
    intro l c h e he
    simp only [normalizeLoop] at h
    split at h
    · rename_i o c0 hrec
      split at h
      · rename_i l2 c2 hloop
        simp only [Prod.mk.injEq, Except.ok.injEq] at h
        rw [← h.1] at he
        cases o with
        | none =>
          simp only [Option.toList, List.nil_append] at he
          exact ih hloop he
        | some x =>
          simp only [Option.toList, List.cons_append, List.nil_append] at he
          rcases List.mem_cons.mp he with rfl | he2
          · exact normalizeRecord_ok_some hrec
          · exact ih hloop he2
      · simp at h
    · simp at h

theorem runAux_papers_mem {deps : CrewDeps} {result : CrewResult}
    {topic : String} {topN : Int} {resp : PyResponse}
    {sc : List (String × Int)} {c : Nat}
    (h : runResearchCrewAux deps result topic topN = (.ok resp, sc, c))
    {e : PyVal} (he : e ∈ resp.papers) :
    ∃ m sm,
      e = PyVal.dict (mkBase m ++ [("summary", PyVal.dict (projectSummary sm))]) := by
  simp only [runResearchCrewAux] at h
  split at h
  · simp at h
  · rename_i items hit
    split at h
    · rename_i normalized c0 hloop
      simp only [Prod.mk.injEq, Except.ok.injEq] at h
      rw [← h.1] at he
      exact normalizeLoop_mem hloop he
    · simp at h

theorem normalizeRecord_dict_ok {summarize : PyVal → Except Unit PyVal}
    (hsum : ∀ q, ∃ sm, summarize q = .ok (PyVal.dict sm))
    (m : List (String × PyVal)) :
    ∃ e c, normalizeRecord summarize (PyVal.dict m) = (.ok (some e), c) := by
  simp only [normalizeRecord]
  split
  · rename_i hcond
    obtain ⟨ht, hd⟩ := Bool.and_eq_true_iff.mp hcond
    obtain ⟨sm, hs⟩ := isDict_exists hd
    rw [hs]
    simp [summaryProjection]
  · obtain ⟨sm, hs⟩ := hsum (PyVal.dict (mkBase m))
    rw [hs]
    simp [summaryProjection]

theorem normalizeLoop_all_dict {summarize : PyVal → Except Unit PyVal}
    (hsum : ∀ q, ∃ sm, summarize q = .ok (PyVal.dict sm)) :
    ∀ items : List PyVal, (∀ p ∈ items, ∃ m, p = PyVal.dict m) →
    ∃ l c, normalizeLoop summarize items = (.ok l, c) ∧
      l.length = items.length := by
  intro items
  induction items with
  | nil => intro _; exact ⟨[], 0, rfl, rfl⟩
  | cons p rest ih =>
    intro hall
    obtain ⟨m, rfl⟩ := hall p (List.mem_cons_self _ _)
    obtain ⟨l, c2, hl, hlen⟩ := ih (fun q hq => hall q (List.mem_cons_of_mem _ hq))
    obtain ⟨e, c0, hrec⟩ := normalizeRecord_dict_ok hsum m
    refine ⟨e :: l, c0 + c2, ?_, ?_⟩
    · simp only [normalizeLoop, hrec, hl, Option.toList, List.cons_append,
        List.nil_append]
    · simp [hlen]

/-! ## Claim theorems -/

/-- Claim C3: the shape dispatch of run_research_crew tests the five
recognized shapes in the fixed order string / list / object-with-string-raw
/ object-with-list-raw / anything-else, first match wins, and the record
list it produces equals the records embedded in that shape in their
original order, with unparsable JSON in the string cases yielding zero
records instead of raising.  Formally, whenever the JSON parser produces
record sequences when it succeeds (which is how the orchestration output
embeds records), the code dispatch `shapePapers` agrees with the
spec-modelled five-step decision procedure `normalizeShapeSpec`. -/
theorem shape_dispatch_matches_spec
    (parse : String → Option PyVal) (result : CrewResult)
    (hp : ∀ s v, parse s = some v → ∃ xs, v = PyVal.list xs) :
    shapePapers parse result = .list (normalizeShapeSpec parse result) := by
  cases result with
  | str s =>
    cases hps : parse s with
    | none => simp [shapePapers, normalizeShapeSpec, hps]
    | some v =>
      obtain ⟨xs, rfl⟩ := hp s v hps
      simp [shapePapers, normalizeShapeSpec, hps]
  | list xs => rfl
  | withRaw raw =>
    cases raw with
    | str s =>
      cases hps : parse s with
      | none => simp [shapePapers, normalizeShapeSpec, hps]
      | some v =>
        obtain ⟨xs, rfl⟩ := hp s v hps
        simp [shapePapers, normalizeShapeSpec, hps]
    | none => rfl
    | bool b => rfl
    | int n => rfl
    | list xs => rfl
    | dict kvs => rfl
  | other => rfl

/-- Witness for C3 at a concrete parser and a wrapper-with-string shape. -/
theorem shape_dispatch_matches_spec_witness :
    shapePapers (fun _ => some (PyVal.list [PyVal.int 7]))
        (.withRaw (.str "x"))
      = .list (normalizeShapeSpec (fun _ => some (PyVal.list [PyVal.int 7]))
        (.withRaw (.str "x"))) :=
  shape_dispatch_matches_spec _ _
    (fun _ _ h => ⟨[PyVal.int 7], (Option.some.inj h).symm⟩)

/-- Claim C4: whenever the shape dispatch yields the empty record list
(for instance from the literal string holding an empty JSON array), the
search client is invoked exactly once, with the original topic and top_n,
and its result becomes the record list. -/
theorem empty_records_single_search_fallback
    (deps : CrewDeps) (result : CrewResult) (topic : String) (topN : Int)
    (h : shapePapers deps.parse result = PyVal.list []) :
    recordsAfterFallback deps result topic topN
      = (PyVal.list (deps.search topic topN), [(topic, topN)]) ∧
    (runResearchCrewAux deps result topic topN).2.1 = [(topic, topN)] := by
  have h1 : recordsAfterFallback deps result topic topN
      = (PyVal.list (deps.search topic topN), [(topic, topN)]) := by
    simp [recordsAfterFallback, h, PyVal.truthy]
  refine ⟨h1, ?_⟩
  simp only [runResearchCrewAux, h1]
  split
  · rfl
  · split <;> rfl

/-- Witness for C4: the orchestration returns the literal two-character
string of an empty JSON array, the parser recognizes it, and the direct
search is invoked once with the original arguments. -/
theorem empty_records_single_search_fallback_witness :
    recordsAfterFallback depsEmptyArray (.str "[]") "transformers" 5
      = (PyVal.list [PyVal.dict []], [("transformers", 5)]) ∧
    (runResearchCrewAux depsEmptyArray (.str "[]") "transformers" 5).2.1
      = [("transformers", 5)] :=
  empty_records_single_search_fallback depsEmptyArray (.str "[]")
    "transformers" 5 rfl

/-- Claim C7: _arxiv_search_function wraps its whole body in a try/except,
so on any provider error it returns the empty list instead of propagating
the exception (and, being total with list codomain in this model, it
always returns a list). -/
theorem arxiv_search_swallows_provider_error
    (provider : String → Int → Except Unit (List ArxivEntry))
    (q : String) (n : Int) (e : Unit)
    (h : provider q n = .error e) :
    arxiv_search_function provider q n = [] := by
  simp [arxiv_search_function, h]

/-- Witness for C7 at a provider that always raises. -/
theorem arxiv_search_swallows_provider_error_witness :
    arxiv_search_function (fun _ _ => .error ()) "quantum computing" 5 = [] :=
  arxiv_search_swallows_provider_error (fun _ _ => .error ())
    "quantum computing" 5 () rfl

/-- Claim C9: a topic that is empty after stripping whitespace is rejected
with a 400 HTTPException before the pipeline (and hence any provider) is
invoked: the recorded pipeline invocation list is empty. -/
theorem empty_topic_rejected_before_pipeline
    (run : String → Int → Except Unit PyResponse) (req : SummarizeRequest)
    (h : pyStrip req.topic = "") :
    summarize_handler run req = (.err 400 "Topic must not be empty", []) := by
  simp [summarize_handler, h]

/-- Witness for C9 at a whitespace-only topic. -/
theorem empty_topic_rejected_before_pipeline_witness :
    summarize_handler (fun t _ => .ok ⟨t, "m", []⟩) ⟨" \t ", some 2⟩
      = (.err 400 "Topic must not be empty", []) :=
  empty_topic_rejected_before_pipeline (fun t _ => .ok ⟨t, "m", []⟩)
    ⟨" \t ", some 2⟩ rfl

/-- Claim C10: when the request field top_n is absent, an explicit JSON
null, or an explicit 0, the handler invokes the pipeline with top_n = 5:
the pydantic default covers absence, and the `req.top_n or 5` coercion
additionally maps null and 0 to 5. -/
theorem falsy_top_n_defaults_to_five
    (run : String → Int → Except Unit PyResponse)
    (raw : RawTopN) (topic : String)
    (ht : ¬pyStrip topic = "")
    (hr : raw = RawTopN.absent ∨ raw = RawTopN.null ∨ raw = RawTopN.val 0) :
    (summarize_handler run ⟨topic, parseTopN raw⟩).2 = [(pyStrip topic, 5)] := by
  rcases hr with rfl | rfl | rfl <;>
    · simp only [summarize_handler, parseTopN]
      rw [if_neg (by simpa using ht)]
      split <;> rfl

/-- Witness for C10 at an explicit top_n of 0. -/
theorem falsy_top_n_defaults_to_five_witness :
    (summarize_handler (fun t _ => .ok ⟨t, "m", []⟩)
      ⟨"graph neural networks", parseTopN (RawTopN.val 0)⟩).2
      = [(pyStrip "graph neural networks", 5)] :=
  falsy_top_n_defaults_to_five (fun t _ => .ok ⟨t, "m", []⟩)
    (RawTopN.val 0) "graph neural networks" (by decide)
    (Or.inr (Or.inr rfl))

/-- Counterexample to claim C1: with a configured client, if the
generate_content call raises, the exception escapes _summarize_with_gemini
(line 155 is outside the try block), so the function neither returns the
all-empty SummaryRecord nor shields the overall request from the
failure. -/
theorem summarize_raises_on_generate_failure :
    summarize_with_gemini true GenOutcome.raises (fun _ => Option.none) []
      = .error () := rfl

/-- Claim C1 (amended): _summarize_with_gemini returns the all-empty
SummaryRecord when the client is unconfigured, and — when the prompt can
be built and the call returns — also when the cleaned response text is
not parseable as JSON; but when the generative call itself raises, the
exception propagates out of the function. -/
theorem summarize_failure_defaults
    (gen : GenOutcome) (parse : String → Option PyVal)
    (paper : List (String × PyVal)) :
    summarize_with_gemini false gen parse paper = .ok emptySummary ∧
    (∀ t, gen = GenOutcome.returns t →
      (∃ a, pyJoin ", " (pyGetD paper "authors" (.list [])) = .ok a) →
      parse (clean_json_text (respText t)) = Option.none →
      summarize_with_gemini true gen parse paper = .ok emptySummary) ∧
    (gen = GenOutcome.raises →
      (∃ a, pyJoin ", " (pyGetD paper "authors" (.list [])) = .ok a) →
      summarize_with_gemini true gen parse paper = .error ()) := by
  refine ⟨rfl, ?_, ?_⟩
  · rintro t rfl ⟨a, ha⟩ hp
    simp [summarize_with_gemini, ha, hp]
  · rintro rfl ⟨a, ha⟩
    simp [summarize_with_gemini, ha]

/-- Witness for C1 (amended), exercising all three branches at concrete
inputs: unconfigured client, unparsable response text, and a raising
generative call. -/
theorem summarize_failure_defaults_witness :
    summarize_with_gemini false (GenOutcome.returns (some "x"))
        (fun _ => Option.none) [] = .ok emptySummary ∧
    summarize_with_gemini true (GenOutcome.returns (some "x"))
        (fun _ => Option.none) [] = .ok emptySummary ∧
    summarize_with_gemini true GenOutcome.raises
        (fun _ => some (PyVal.dict [])) [] = .error () :=
  ⟨(summarize_failure_defaults (GenOutcome.returns (some "x"))
      (fun _ => Option.none) []).1,
   (summarize_failure_defaults (GenOutcome.returns (some "x"))
      (fun _ => Option.none) []).2.1 (some "x") rfl
      ⟨String.intercalate ", " [], rfl⟩ rfl,
   (summarize_failure_defaults GenOutcome.raises
      (fun _ => some (PyVal.dict [])) []).2.2 rfl
      ⟨String.intercalate ", " [], rfl⟩⟩

/-- Counterexample to claim C2: the orchestration returns a non-empty list
holding a single non-record element, so the empty-papers fallback is not
triggered (the dispatched list is truthy), the lone element is dropped by
the defensive filter, and run_research_crew returns zero papers even
though the search client, called with the same arguments, would have
returned a non-empty list. -/
theorem run_empty_despite_search_nonempty :
    run_research_crew depsJunkList (.list [PyVal.int 1]) "t" 5
      = .ok ⟨"t", "gemini-2.5-flash", []⟩ ∧
    depsJunkList.search "t" 5 ≠ [] :=
  ⟨rfl, by simp [depsJunkList]⟩

/-- Claim C2 (amended): when the shape dispatch produces a falsy record
value (which covers every unusable orchestration shape), the fallback
search is invoked with the original arguments and its result becomes the
record list, so the pipeline returns as many papers as the direct search
found — in particular a non-empty papers list — provided the search
results are record-shaped dicts and the summarizer returns dict
summaries. -/
theorem run_fallback_uses_search_results
    (deps : CrewDeps) (result : CrewResult) (topic : String) (topN : Int)
    (hfalsy : (shapePapers deps.parse result).truthy = false)
    (hdicts : ∀ p ∈ deps.search topic topN, ∃ m, p = PyVal.dict m)
    (hsum : ∀ q, ∃ sm, deps.summarize q = .ok (PyVal.dict sm))
    (hne : deps.search topic topN ≠ []) :
    ∃ resp c,
      runResearchCrewAux deps result topic topN
        = (.ok resp, [(topic, topN)], c) ∧
      resp.papers.length = (deps.search topic topN).length ∧
      resp.papers ≠ [] := by
  have hpf : recordsAfterFallback deps result topic topN
      = (PyVal.list (deps.search topic topN), [(topic, topN)]) := by
    simp [recordsAfterFallback, hfalsy]
  obtain ⟨l, c, hloop, hlen⟩ :=
    normalizeLoop_all_dict hsum (deps.search topic topN) hdicts
  refine ⟨⟨topic, if deps.apiKeySet then deps.geminiModel
    else "gemini-2.5-flash", l⟩, c, ?_, ?_, ?_⟩
  · simp only [runResearchCrewAux, hpf, pyIter, hloop]
  · exact hlen
  · simp only [ne_eq]
    intro hl
    exact hne (List.eq_nil_of_length_eq_zero (by rw [← hlen, hl]; rfl))

/-- Witness for C2 (amended) at a wrapper object whose raw payload is an
int (an unusable shape) and a search client returning one record. -/
theorem run_fallback_uses_search_results_witness :
    ∃ resp c,
      runResearchCrewAux depsEmptyRecord (.withRaw (.int 3)) "bert" 5
        = (.ok resp, [("bert", 5)], c) ∧
      resp.papers.length = (depsEmptyRecord.search "bert" 5).length ∧
      resp.papers ≠ [] :=
  run_fallback_uses_search_results depsEmptyRecord (.withRaw (.int 3))
    "bert" 5 rfl
    (by intro p hp; simp [depsEmptyRecord] at hp; exact ⟨[], hp⟩)
    (fun _ => ⟨[], rfl⟩)
    (by simp [depsEmptyRecord])

/-- Claim C5: every paper emitted by a successful run_research_crew
carries a summary dict with exactly the four keys problem, methodology,
findings, limitations (in that order), obtained by projecting some
upstream summary source dict; any of the four keys missing in the source
is mapped to the empty string, so a partial summary record is never
produced. -/
theorem emitted_summary_four_keys
    (deps : CrewDeps) (result : CrewResult) (topic : String) (topN : Int)
    (resp : PyResponse) (sc : List (String × Int)) (c : Nat)
    (h : runResearchCrewAux deps result topic topN = (.ok resp, sc, c)) :
    ∀ e ∈ resp.papers, ∃ entries sm, e = PyVal.dict entries ∧
      pyLookup entries "summary" = some (.dict (projectSummary sm)) ∧
      (projectSummary sm).map Prod.fst
        = ["problem", "methodology", "findings", "limitations"] ∧
      ∀ k ∈ (["problem", "methodology", "findings",
          "limitations"] : List String),
        pyLookup sm k = Option.none →
        pyLookup (projectSummary sm) k = some (.str "") := by
  intro e he
  obtain ⟨m, sm, rfl⟩ := runAux_papers_mem h he
  refine ⟨mkBase m ++ [("summary", PyVal.dict (projectSummary sm))], sm,
    rfl, ?_, rfl, ?_⟩
  · rfl
  intro k hk hmiss
  simp only [List.mem_cons, List.not_mem_nil, or_false] at hk
  rcases hk with rfl | rfl | rfl | rfl
  · show some (pyGetD sm "problem" (.str "")) = some (.str "")
    simp [pyGetD, hmiss]
  · show some (pyGetD sm "methodology" (.str "")) = some (.str "")
    simp [pyGetD, hmiss]
  · show some (pyGetD sm "findings" (.str "")) = some (.str "")
    simp [pyGetD, hmiss]
  · show some (pyGetD sm "limitations" (.str "")) = some (.str "")
    simp [pyGetD, hmiss]

/-- Witness for C5 at a concrete run whose fallback search yields one
empty record enriched by an empty summarizer result. -/
theorem emitted_summary_four_keys_witness :
    ∃ entries sm, emptyEnriched = PyVal.dict entries ∧
      pyLookup entries "summary" = some (.dict (projectSummary sm)) ∧
      (projectSummary sm).map Prod.fst
        = ["problem", "methodology", "findings", "limitations"] ∧
      ∀ k ∈ (["problem", "methodology", "findings",
          "limitations"] : List String),
        pyLookup sm k = Option.none →
        pyLookup (projectSummary sm) k = some (.str "") :=
  emitted_summary_four_keys depsEmptyRecord .other "t" 5 respEmptyRecord
    [("t", 5)] 1 rfl emptyEnriched (by simp [respEmptyRecord])

/-- Claim C6: every paper emitted by a successful run_research_crew has
exactly the six keys title, authors, abstract, link, published, summary
(so no PaperRecord field is ever absent); the first four hold the source
value coerced through `or` with defaults empty string / empty list /
empty string / empty string, published holds the source value with
default null — in particular, a field missing from the source record
appears with its default value (empty string, empty list, or null). -/
theorem emitted_paper_fields_all_present
    (deps : CrewDeps) (result : CrewResult) (topic : String) (topN : Int)
    (resp : PyResponse) (sc : List (String × Int)) (c : Nat)
    (h : runResearchCrewAux deps result topic topN = (.ok resp, sc, c)) :
    ∀ e ∈ resp.papers, ∃ entries m, e = PyVal.dict entries ∧
      entries.map Prod.fst
        = ["title", "authors", "abstract", "link", "published",
           "summary"] ∧
      pyLookup entries "title"
        = some (pyOr (pyGetD m "title" PyVal.none) (.str "")) ∧
      pyLookup entries "authors"
        = some (pyOr (pyGetD m "authors" PyVal.none) (.list [])) ∧
      pyLookup entries "abstract"
        = some (pyOr (pyGetD m "abstract" PyVal.none) (.str "")) ∧
      pyLookup entries "link"
        = some (pyOr (pyGetD m "link" PyVal.none) (.str "")) ∧
      pyLookup entries "published"
        = some (pyGetD m "published" PyVal.none) ∧
      (pyLookup m "title" = Option.none →
        pyLookup entries "title" = some (.str "")) ∧
      (pyLookup m "authors" = Option.none →
        pyLookup entries "authors" = some (.list [])) ∧
      (pyLookup m "abstract" = Option.none →
        pyLookup entries "abstract" = some (.str "")) ∧
      (pyLookup m "link" = Option.none →
        pyLookup entries "link" = some (.str "")) ∧
      (pyLookup m "published" = Option.none →
        pyLookup entries "published" = some PyVal.none) := by
  intro e he
  obtain ⟨m, sm, rfl⟩ := runAux_papers_mem h he
  refine ⟨mkBase m ++ [("summary", PyVal.dict (projectSummary sm))], m,
    rfl, rfl, rfl, rfl, rfl, rfl, rfl, ?_, ?_, ?_, ?_, ?_⟩
  · intro hmiss
    show some (pyOr (pyGetD m "title" PyVal.none) (.str "")) = _
    simp [pyGetD, hmiss, pyOr, PyVal.truthy]
  · intro hmiss
    show some (pyOr (pyGetD m "authors" PyVal.none) (.list [])) = _
    simp [pyGetD, hmiss, pyOr, PyVal.truthy]
  · intro hmiss
    show some (pyOr (pyGetD m "abstract" PyVal.none) (.str "")) = _
    simp [pyGetD, hmiss, pyOr, PyVal.truthy]
  · intro hmiss
    show some (pyOr (pyGetD m "link" PyVal.none) (.str "")) = _
    simp [pyGetD, hmiss, pyOr, PyVal.truthy]
  · intro hmiss
    show some (pyGetD m "published" PyVal.none) = _
    simp [pyGetD, hmiss]

/-- Witness for C6 at a concrete run whose fallback search yields one
record with every field missing: all six keys are present with their
defaults. -/
theorem emitted_paper_fields_all_present_witness :
    ∃ entries m, emptyEnriched = PyVal.dict entries ∧
      entries.map Prod.fst
        = ["title", "authors", "abstract", "link", "published",
           "summary"] ∧
      pyLookup entries "title"
        = some (pyOr (pyGetD m "title" PyVal.none) (.str "")) ∧
      pyLookup entries "authors"
        = some (pyOr (pyGetD m "authors" PyVal.none) (.list [])) ∧
      pyLookup entries "abstract"
        = some (pyOr (pyGetD m "abstract" PyVal.none) (.str "")) ∧
      pyLookup entries "link"
        = some (pyOr (pyGetD m "link" PyVal.none) (.str "")) ∧
      pyLookup entries "published"
        = some (pyGetD m "published" PyVal.none) ∧
      (pyLookup m "title" = Option.none →
        pyLookup entries "title" = some (.str "")) ∧
      (pyLookup m "authors" = Option.none →
        pyLookup entries "authors" = some (.list [])) ∧
      (pyLookup m "abstract" = Option.none →
        pyLookup entries "abstract" = some (.str "")) ∧
      (pyLookup m "link" = Option.none →
        pyLookup entries "link" = some (.str "")) ∧
      (pyLookup m "published" = Option.none →
        pyLookup entries "published" = some PyVal.none) :=
  emitted_paper_fields_all_present depsEmptyRecord .other "papers" 5
    ⟨"papers", "gemini-2.5-flash", [emptyEnriched]⟩ [("papers", 5)] 1 rfl
    emptyEnriched (by simp)

/-- Counterexample to claim C8: a record whose summary field holds the
empty dict — a dict-valued summary sub-object — still causes one
summarizer invocation, because the code guard is
`not summary or not isinstance(summary, dict)` and the empty dict is
falsy. -/
theorem empty_dict_summary_still_invokes_summarizer :
    (pyGetD [("summary", PyVal.dict [])] "summary" PyVal.none).isDict
      = true ∧
    (normalizeRecord (fun _ => Except.ok (PyVal.dict []))
      (PyVal.dict [("summary", PyVal.dict [])])).2 = 1 :=
  ⟨rfl, rfl⟩

/-- Claim C8 (amended): for each record, the summarizer is invoked exactly
once if and only if the record carries no truthy dict as its summary
field — that is, the summary field is absent, falsy (including the empty
dict), or not a dict; when the summary field is a non-empty dict, zero
invocations happen and the embedded values are used, with the four keys
filled from the embedded dict and missing keys defaulted to the empty
string. -/
theorem summarizer_invocation_characterization
    (summarize : PyVal → Except Unit PyVal) (m : List (String × PyVal)) :
    (∀ sm, pyGetD m "summary" PyVal.none = PyVal.dict sm → sm ≠ [] →
      normalizeRecord summarize (PyVal.dict m)
        = (.ok (some (PyVal.dict (mkBase m
            ++ [("summary", PyVal.dict (projectSummary sm))]))), 0)) ∧
    (((pyGetD m "summary" PyVal.none).truthy
        && (pyGetD m "summary" PyVal.none).isDict) = false →
      (normalizeRecord summarize (PyVal.dict m)).2 = 1) := by
  constructor
  · intro sm hs hne
    simp only [normalizeRecord, hs, summaryProjection]
    rw [if_pos (by simp [PyVal.truthy, PyVal.isDict, hne])]
  · intro hcond
    simp only [normalizeRecord, hcond, Bool.false_eq_true, if_false]
    split
    · split
      · rfl
      · rfl
    · rfl

/-- Witness for C8 (amended): a record embedding a non-empty summary dict
is enriched with zero summarizer invocations, and a record with no
summary field triggers exactly one invocation. -/
theorem summarizer_invocation_characterization_witness :
    normalizeRecord (fun _ => Except.ok PyVal.none)
        (PyVal.dict [("summary", PyVal.dict [("problem", PyVal.str "p")])])
      = (.ok (some (PyVal.dict
          (mkBase [("summary", PyVal.dict [("problem", PyVal.str "p")])]
            ++ [("summary", PyVal.dict
              (projectSummary [("problem", PyVal.str "p")]))]))), 0) ∧
    (normalizeRecord (fun _ => Except.ok PyVal.none) (PyVal.dict [])).2
      = 1 :=
  ⟨(summarizer_invocation_characterization (fun _ => Except.ok PyVal.none)
      [("summary", PyVal.dict [("problem", PyVal.str "p")])]).1
      [("problem", PyVal.str "p")] rfl (by simp),
   (summarizer_invocation_characterization (fun _ => Except.ok PyVal.none)
      []).2 rfl⟩
